import Mathlib

/-!
# Verification of the Squad chat/event backend core

Shallow embedding of the data model and the operations of `src/main.py`:
the database rows (users, hangouts, participants, messages, direct
messages), the REST mutation endpoints (`register`, `join_h`, `like_h`,
`send_dm`), the websocket `ConnectionManager` (`connect`, `disconnect`,
`broadcast`, `broadcast_status`) and one iteration of the websocket
receive loop of `ws_endpoint` (persist, broadcast, bot auto-reply).

Stateful code is embedded as explicit state passing: each operation maps
a `DBState` (the database snapshot) or a `ManagerState` (the in-memory
connection registry) to the next one, together with the observable
outputs (delivered events, action traces).
-/

namespace Squad

/-- A row of `users_v8`: username, password hash, avatar, admin flag. -/
structure User where
  username : String
  hashedPassword : String
  avatarData : Option String
  isAdmin : Bool
deriving DecidableEq, Repr

/-- A row of `hangouts_v8`.  `likesData` embeds the `json.loads` of the
`likes_data` text column, which the code always keeps as a JSON list of
usernames. -/
structure Hangout where
  id : Nat
  title : String
  location : String
  hostUsername : String
  imageData : Option String
  likesData : List String
deriving DecidableEq, Repr

/-- A row of `participants_v8`. -/
structure Participant where
  hangoutId : Nat
  username : String
  userAvatar : Option String
deriving DecidableEq, Repr

/-- A row of `messages_v8`. -/
structure Message where
  hangoutId : Nat
  username : String
  userAvatar : Option String
  text : String
deriving DecidableEq, Repr

/-- A row of `direct_messages_v8`. -/
structure DirectMessage where
  sender : String
  receiver : String
  text : String
  timestamp : String
deriving DecidableEq, Repr

/-- The whole database snapshot. -/
structure DBState where
  users : List User
  hangouts : List Hangout
  participants : List Participant
  messages : List Message
  dms : List DirectMessage
deriving DecidableEq, Repr

/-- The empty database. -/
def DBState.empty : DBState := ⟨[], [], [], [], []⟩

/-- Body of the `/register` request (`RegisterSchema`): no admin field is
accepted from the caller. -/
structure RegisterSchema where
  username : String
  password : String
  avatarData : Option String
deriving DecidableEq, Repr

/-- Body of the `/send_dm/` request (`DMSchema`). -/
structure DMSchema where
  receiver : String
  text : String
deriving DecidableEq, Repr

/-- Python `str.lower()` on the characters of a string (ASCII
lowercasing, which is what the usernames and the trigger phrase
exercise), embedded at the character-list level so it evaluates by
kernel reduction. -/
def pyLower (s : String) : String :=
  String.mk (s.data.map Char.toLower)

/-- The `register` endpoint: reject with HTTP 400 if the username is taken,
otherwise insert a user whose `is_admin` is
`u.username.lower() == "qasim"`.  The password hash function
(`get_hash`, pbkdf2) is an external collaborator passed as `hashFn`. -/
def register (hashFn : String → String) (db : DBState) (u : RegisterSchema) :
    Except Nat DBState :=
  if db.users.any (fun w => w.username == u.username) then
    Except.error 400
  else
    Except.ok { db with
      users := db.users ++
        [⟨u.username, hashFn u.password, u.avatarData,
          pyLower u.username == "qasim"⟩] }

/-- The `join_h` endpoint (`/join_hangout/{id}`): if no participant row with
this hangout id and username exists, insert one; in all cases answer
`{"msg": "ok"}`.  There is no capacity check and no check that the
hangout exists. -/
def join_h (db : DBState) (id : Nat) (u : User) : DBState :=
  if db.participants.any
      (fun p => p.hangoutId == id && p.username == u.username) then
    db
  else
    { db with participants :=
        db.participants ++ [⟨id, u.username, u.avatarData⟩] }

/-- Number of participant rows for a hangout id (the attendee count the
`/hangouts/` feed reports as `count`). -/
def attendeeCount (db : DBState) (id : Nat) : Nat :=
  (db.participants.filter (fun p => p.hangoutId == id)).length

/-- The like-toggle on the decoded `likes_data` list: remove the first
occurrence if present (Python `list.remove`), else append. -/
def toggleLike (likes : List String) (u : String) : List String :=
  if u ∈ likes then likes.erase u else likes ++ [u]

/-- Apply `f` to the first hangout whose id matches (the row returned by
`.filter(Hangout.id == hangout_id).first()`); leave the list unchanged
when no row matches. -/
def likeUpdate (hid : Nat) (u : String) : List Hangout → List Hangout
  | [] => []
  | h :: t =>
      if h.id == hid then { h with likesData := toggleLike h.likesData u } :: t
      else h :: likeUpdate hid u t

/-- The `like_h` endpoint (`/like_hangout/{hangout_id}`): load the first
hangout with this id; if found, toggle the caller's username in its
likes list and commit; if absent, do nothing.  Either way answer
`{"msg": "ok"}`. -/
def like_h (db : DBState) (hid : Nat) (uname : String) : DBState :=
  { db with hangouts := likeUpdate hid uname db.hangouts }

/-- The likes list of the first hangout with a given id, if any. -/
def likesOf (db : DBState) (hid : Nat) : Option (List String) :=
  (db.hangouts.find? (fun h => h.id == hid)).map (fun h => h.likesData)

/-- A live-delivery event pushed over a websocket: either a chat message
`{"type": "msg", ...}` (the bot's frame carries no avatar, embedded as
`none`) or a presence frame `{"type": "status", "online_users": [...]}`. -/
inductive Event where
  | msg (user : String) (avatar : Option String) (text : String)
  | status (onlineUsers : List String)
deriving DecidableEq, Repr

/-- The `send_dm` endpoint (`/send_dm/`): if a user row for the receiver
exists, insert a `DirectMessage` row and commit; otherwise do nothing.
Either way answer `{"msg": "sent"}`.  The second component is the list
of events pushed to live connections by this endpoint: the code performs
no websocket send here, so it is always empty. -/
def send_dm (db : DBState) (sender : String) (dm : DMSchema) (ts : String) :
    DBState × List Event :=
  if db.users.any (fun w => w.username == dm.receiver) then
    ({ db with dms :=
        db.dms ++ [⟨sender, dm.receiver, dm.text, ts⟩] }, [])
  else
    (db, [])

/-- A live websocket connection.  `user` is the username of the session
holding it (known to the session, not stored by the manager); `live`
says whether `send_json` on it succeeds — a closed transport makes it
raise, which `broadcast` swallows. -/
structure Conn where
  id : Nat
  user : String
  live : Bool
deriving DecidableEq, Repr

/-- One successful `send_json`: this connection received this event. -/
structure Delivery where
  conn : Conn
  event : Event
deriving DecidableEq, Repr

/-- The state of the module-level `ConnectionManager`:
`active_connections` is the dict `hangout_id -> list of websockets`,
`online_users` the single global set of usernames (embedded as a
duplicate-free list with Python-set add/remove semantics). -/
structure ManagerState where
  active_connections : List (Nat × List Conn)
  online_users : List String
deriving DecidableEq, Repr

/-- The manager as constructed at import time: no rooms, nobody online. -/
def ManagerState.empty : ManagerState := ⟨[], []⟩

/-- The connection list registered for a room id, if the key is present
in the dict. -/
def lookupRoom (m : ManagerState) (hid : Nat) : Option (List Conn) :=
  (m.active_connections.find? (fun kv => kv.1 == hid)).map (fun kv => kv.2)

/-- The usernames holding a connection registered under a room id. -/
def roomUsers (m : ManagerState) (hid : Nat) : List String :=
  ((lookupRoom m hid).getD []).map (fun c => c.user)

/-- The method `ConnectionManager.broadcast`: if the room id is a key of
`active_connections`, iterate over a copy of its list and `send_json` to
each connection inside `try ... except: pass`.  Returns the unchanged
manager state (the loop never mutates it) and the deliveries that
succeeded, in iteration order; a failed send is swallowed and the
connection is left registered. -/
def broadcast (m : ManagerState) (e : Event) (hid : Nat) :
    ManagerState × List Delivery :=
  match lookupRoom m hid with
  | none => (m, [])
  | some conns =>
      (m, (conns.filter (fun c => c.live)).map (fun c => ⟨c, e⟩))

/-- The method `ConnectionManager.broadcast_status`: broadcast
`{"type": "status", "online_users": list(online_users)}` to the room. -/
def broadcast_status (m : ManagerState) (hid : Nat) :
    ManagerState × List Delivery :=
  broadcast m (Event.status m.online_users) hid

/-- Append a websocket to the room's list, creating the dict entry when
the key is absent (`active_connections[hid] = []` then `.append`). -/
def addToRoom (hid : Nat) (c : Conn) :
    List (Nat × List Conn) → List (Nat × List Conn)
  | [] => [(hid, [c])]
  | (k, l) :: t =>
      if k == hid then (k, l ++ [c]) :: t else (k, l) :: addToRoom hid c t

/-- Python-set `add`: insert the element unless already present. -/
def setAdd (l : List String) (u : String) : List String :=
  if u ∈ l then l else l ++ [u]

/-- The method `ConnectionManager.connect`: accept the socket, register it under the
room id, add the username to the global `online_users` set, then
`broadcast_status` to that room.  Returns the new manager state, the
status event that was broadcast, and the deliveries it made. -/
def connect (m : ManagerState) (ws : Conn) (hid : Nat) (uname : String) :
    ManagerState × Event × List Delivery :=
  let m1 : ManagerState :=
    { active_connections := addToRoom hid ws m.active_connections,
      online_users := setAdd m.online_users uname }
  let r := broadcast_status m1 hid
  (r.1, Event.status m1.online_users, r.2)

/-- Remove the first occurrence of a websocket from the room's list when
the key is present (`if ws in list: list.remove(ws)`). -/
def removeFromRoom (hid : Nat) (c : Conn) :
    List (Nat × List Conn) → List (Nat × List Conn)
  | [] => []
  | (k, l) :: t =>
      if k == hid then (k, l.erase c) :: t
      else (k, l) :: removeFromRoom hid c t

/-- The method `ConnectionManager.disconnect`: drop the websocket from the room's
list and remove the username from the global `online_users` set —
unconditionally, even if the identity still holds other live
connections. -/
def disconnect (m : ManagerState) (ws : Conn) (hid : Nat) (uname : String) :
    ManagerState :=
  { active_connections := removeFromRoom hid ws m.active_connections,
    online_users := m.online_users.erase uname }

/-- Whether the pattern occurs at the very start of the text (character
lists). -/
def matchesHere : List Char → List Char → Bool
  | [], _ => true
  | _ :: _, [] => false
  | p :: ps, c :: cs => p == c && matchesHere ps cs

/-- Python's substring test `pat in s` on character lists: the pattern
occurs at the start of some suffix. -/
def containsSub (pat : List Char) : List Char → Bool
  | [] => pat.isEmpty
  | c :: cs => matchesHere pat (c :: cs) || containsSub pat cs

/-- The trigger test of the bot auto-reply:
`"@squadbot" in data.lower()` — the lowercased frame contains the
substring `"@squadbot"`. -/
def triggerBot (s : String) : Bool :=
  containsSub "@squadbot".data (pyLower s).data

/-- The username the bot reply is committed and broadcast under. -/
def botName : String := "SquadBot 🤖"

/-- One step of the `ws_endpoint` session, observed as a trace: a commit
of a message row, or a room broadcast of an event. -/
inductive Action where
  | persist (m : Message)
  | broadcastMsg (e : Event) (hid : Nat)
deriving DecidableEq, Repr

/-- The `{"type": "msg", ...}` event the session broadcasts for a
message row. -/
def msgEvent (m : Message) : Event :=
  Event.msg m.username m.userAvatar m.text

/-- One iteration of the `ws_endpoint` receive loop on an inbound text
frame: commit the chat message, broadcast it, and if the frame contains
the trigger phrase, commit and broadcast one bot reply (its text drawn
by `random.choice`, passed here as `reply`).  Returns the new database
and the ordered trace of persist/broadcast actions. -/
def handleFrame (db : DBState) (hid : Nat) (uname : String)
    (avatar : Option String) (text reply : String) :
    DBState × List Action :=
  let userMsg : Message := ⟨hid, uname, avatar, text⟩
  let db1 := { db with messages := db.messages ++ [userMsg] }
  let acts1 := [Action.persist userMsg,
                Action.broadcastMsg (msgEvent userMsg) hid]
  if triggerBot text then
    let botMsg : Message := ⟨hid, botName, none, reply⟩
    ({ db1 with messages := db1.messages ++ [botMsg] },
     acts1 ++ [Action.persist botMsg,
               Action.broadcastMsg (msgEvent botMsg) hid])
  else
    (db1, acts1)

/-- The message rows committed along a trace, in order. -/
def persistedIn : List Action → List Message
  | [] => []
  | Action.persist m :: t => m :: persistedIn t
  | Action.broadcastMsg _ _ :: t => persistedIn t

/-- The room broadcasts issued along a trace, in order. -/
def broadcastIn : List Action → List (Event × Nat)
  | [] => []
  | Action.persist _ :: t => broadcastIn t
  | Action.broadcastMsg e h :: t => (e, h) :: broadcastIn t

/-- Every broadcast in the trace is of a message already committed
earlier in the trace (`seen` holds the rows committed so far). -/
def persistFirst (seen : List Message) : List Action → Bool
  | [] => true
  | Action.persist m :: t => persistFirst (m :: seen) t
  | Action.broadcastMsg e h :: t =>
      seen.any (fun m => decide (msgEvent m = e ∧ m.hangoutId = h)) &&
        persistFirst seen t

/-! ## Helper lemmas -/

/-- The method `broadcast` never mutates the manager state. -/
theorem broadcast_state_eq (m : ManagerState) (e : Event) (hid : Nat) :
    (broadcast m e hid).1 = m := by
  unfold broadcast
  cases lookupRoom m hid <;> rfl

/-! ## Concrete states used by counterexamples and witnesses -/

/-- A database with one hangout (id 1) already holding its host `"a"` as
sole attendee — the `capacity = 1` scenario of C1. -/
def dbOneFull : DBState :=
  { users := [], hangouts := [⟨1, "party", "loft", "a", none, []⟩],
    participants := [⟨1, "a", none⟩], messages := [], dms := [] }

/-- A second user trying to join `dbOneFull`'s hangout. -/
def userB : User := ⟨"b", "hb", none, false⟩

/-! ## C1: join capacity and idempotence -/

/-- C1 (counterexample): `join_h` enforces no capacity.  In `dbOneFull`
the hangout of id 1 already has 1 attendee; with capacity `C = 1` the
claim demands the join be rejected with `RoomFull` and perform no write,
but the code appends a second participant and the count reaches
`2 > 1`. -/
theorem C1_capacity_counterexample :
    attendeeCount dbOneFull 1 = 1 ∧
    attendeeCount (join_h dbOneFull 1 userB) 1 = 2 ∧
    join_h dbOneFull 1 userB ≠ dbOneFull := by
  decide

/-- C1 (amended): `join_h` never checks any capacity: re-joining an
identity already present among the hangout's participants is a no-op
that changes nothing, and a join by a fresh identity always appends one
participant row, increasing the attendee count by one without bound. -/
theorem C1_join_idempotent_unbounded (db : DBState) (id : Nat) (u : User) :
    (db.participants.any
        (fun p => p.hangoutId == id && p.username == u.username) = true →
      join_h db id u = db) ∧
    (db.participants.any
        (fun p => p.hangoutId == id && p.username == u.username) = false →
      (join_h db id u).participants =
        db.participants ++ [⟨id, u.username, u.avatarData⟩] ∧
      attendeeCount (join_h db id u) id = attendeeCount db id + 1) := by
  constructor
  · intro h
    unfold join_h
    simp [h]
  · intro h
    unfold join_h
    simp only [h, Bool.false_eq_true, if_false]
    refine ⟨trivial, ?_⟩
    simp [attendeeCount, List.filter_append]

/-- C1 witness: a re-join by the already-present `"a"` leaves `dbOneFull`
unchanged, and the fresh join by `"b"` appends exactly one row. -/
theorem C1_join_idempotent_unbounded_witness :
    join_h dbOneFull 1 ⟨"a", "ha", none, false⟩ = dbOneFull ∧
    (join_h dbOneFull 1 userB).participants =
      dbOneFull.participants ++ [⟨1, "b", none⟩] :=
  ⟨(C1_join_idempotent_unbounded dbOneFull 1 ⟨"a", "ha", none, false⟩).1
      (by decide),
   ((C1_join_idempotent_unbounded dbOneFull 1 userB).2 (by decide)).1⟩

/-! ## C2: broadcast with one dead connection -/

/-- A connection whose transport is closed: `send_json` raises. -/
def connDead : Conn := ⟨0, "u", false⟩

/-- A healthy connection in the same room. -/
def connLive : Conn := ⟨1, "v", true⟩

/-- Room 1 holds one dead and one live connection. -/
def mOneDead : ManagerState := ⟨[(1, [connDead, connLive])], ["u", "v"]⟩

/-- A chat event to broadcast in the C2 scenario. -/
def evHello : Event := Event.msg "u" none "hello"

/-- C2 (counterexample): broadcasting to room 1 of `mOneDead` delivers to
the one live connection, but the dead connection is NOT removed from the
room's group: the `except: pass` swallows the failure and leaves
`active_connections` untouched, contradicting the claim's removal
clause. -/
theorem C2_no_removal_counterexample :
    (broadcast mOneDead evHello 1).2 = [⟨connLive, evHello⟩] ∧
    lookupRoom (broadcast mOneDead evHello 1).1 1 =
      some [connDead, connLive] := by
  decide

/-- C2 (amended): a room broadcast delivers the event exactly once to
every live connection of the group, skips failing connections without
letting the exception escape, and leaves the manager state — including
the failed connection's registration — completely unchanged; when
exactly one connection of the group is dead, the remaining `N − 1`
receive the event. -/
theorem C2_broadcast_skips_dead (m : ManagerState) (e : Event) (hid : Nat)
    (conns : List Conn) (h : lookupRoom m hid = some conns) :
    (broadcast m e hid).1 = m ∧
    (broadcast m e hid).2 =
      (conns.filter (fun c => c.live)).map (fun c => ⟨c, e⟩) ∧
    ((conns.filter (fun c => !c.live)).length = 1 →
      ((broadcast m e hid).2).length + 1 = conns.length) := by
  refine ⟨broadcast_state_eq m e hid, ?_, ?_⟩
  · unfold broadcast
    rw [h]
  · intro h1
    unfold broadcast
    rw [h]
    simp only [List.length_map]
    have := List.length_eq_length_filter_add (l := conns)
      (fun c => c.live)
    omega

/-- C2 witness: in `mOneDead` the broadcast reaches exactly the one live
connection out of two. -/
theorem C2_broadcast_skips_dead_witness :
    (broadcast mOneDead evHello 1).1 = mOneDead ∧
    (broadcast mOneDead evHello 1).2 = [⟨connLive, evHello⟩] ∧
    ((broadcast mOneDead evHello 1).2).length + 1 = 2 :=
  have h := C2_broadcast_skips_dead mOneDead evHello 1 [connDead, connLive]
    (by decide)
  ⟨h.1, by rw [h.2.1]; decide, by
    have := h.2.2 (by decide)
    simpa using this⟩

/-! ## C10: broadcast to a room with no connections -/

/-- C10: broadcasting to a room id that is absent from
`active_connections`, or registered with an empty list, delivers nothing,
changes no manager state and raises no error. -/
theorem C10_broadcast_no_connections (m : ManagerState) (e : Event)
    (hid : Nat)
    (h : lookupRoom m hid = none ∨ lookupRoom m hid = some []) :
    broadcast m e hid = (m, []) := by
  rcases h with h | h <;> simp [broadcast, h]

/-- C10 witness: broadcasting to the never-registered room 5 of the
fresh manager is a no-op. -/
theorem C10_broadcast_no_connections_witness :
    broadcast ManagerState.empty evHello 5 = (ManagerState.empty, []) :=
  C10_broadcast_no_connections ManagerState.empty evHello 5
    (Or.inl (by decide))

/-! ## C3: persist precedes broadcast, persisted iff broadcast -/

/-- C3: along one iteration of the `ws_endpoint` receive loop — the user
message and, when triggered, the bot reply — the broadcasts issued are
exactly the committed message rows, in the same order and to the same
room (persisted iff broadcast), every broadcast happens only after the
commit of the very message it carries, and the persisted history grows
by exactly the committed rows. -/
theorem C3_persist_then_broadcast (db : DBState) (hid : Nat)
    (uname : String) (avatar : Option String) (text reply : String) :
    broadcastIn (handleFrame db hid uname avatar text reply).2 =
      (persistedIn (handleFrame db hid uname avatar text reply).2).map
        (fun m => (msgEvent m, m.hangoutId)) ∧
    persistFirst [] (handleFrame db hid uname avatar text reply).2 = true ∧
    (handleFrame db hid uname avatar text reply).1.messages =
      db.messages ++
        persistedIn (handleFrame db hid uname avatar text reply).2 := by
  unfold handleFrame
  by_cases h : triggerBot text = true <;>
    simp [h, persistedIn, broadcastIn, persistFirst]

/-! ## C8: bot auto-reply -/

/-- C8: when the inbound frame contains the trigger phrase, exactly one
automated reply — authored by `botName` — is committed immediately after
the triggering message and broadcast right after it; a frame without the
trigger phrase commits and broadcasts only the user's message and no
reply. -/
theorem C8_single_bot_reply (db : DBState) (hid : Nat) (uname : String)
    (avatar : Option String) (text reply : String) :
    (triggerBot text = true →
      (handleFrame db hid uname avatar text reply).1.messages =
        db.messages ++
          [⟨hid, uname, avatar, text⟩, ⟨hid, botName, none, reply⟩] ∧
      (handleFrame db hid uname avatar text reply).2 =
        [Action.persist ⟨hid, uname, avatar, text⟩,
         Action.broadcastMsg (Event.msg uname avatar text) hid,
         Action.persist ⟨hid, botName, none, reply⟩,
         Action.broadcastMsg (Event.msg botName none reply) hid]) ∧
    (triggerBot text = false →
      (handleFrame db hid uname avatar text reply).1.messages =
        db.messages ++ [⟨hid, uname, avatar, text⟩] ∧
      (handleFrame db hid uname avatar text reply).2 =
        [Action.persist ⟨hid, uname, avatar, text⟩,
         Action.broadcastMsg (Event.msg uname avatar text) hid]) := by
  constructor <;> intro h <;> simp [handleFrame, h, msgEvent]

/-- C8 witness: `"yo @SquadBot"` (case-insensitive match) draws exactly
one bot reply right after it; `"hello"` draws none. -/
theorem C8_single_bot_reply_witness :
    (handleFrame DBState.empty 1 "a" none "yo @SquadBot" "Music?").1.messages
      = [⟨1, "a", none, "yo @SquadBot"⟩, ⟨1, botName, none, "Music?"⟩] ∧
    (handleFrame DBState.empty 1 "a" none "hello" "Music?").1.messages
      = [⟨1, "a", none, "hello"⟩] :=
  ⟨by
    have h := (C8_single_bot_reply DBState.empty 1 "a" none "yo @SquadBot"
      "Music?").1 (by decide)
    simpa using h.1,
   by
    have h := (C8_single_bot_reply DBState.empty 1 "a" none "hello"
      "Music?").2 (by decide)
    simpa using h.1⟩

/-! ## C4: direct messages are persisted, never pushed -/

/-- A database containing the sender and the receiver of the C4
scenario. -/
def dbTwoUsers : DBState :=
  { users := [⟨"alice", "h1", none, false⟩, ⟨"bob", "h2", none, false⟩],
    hangouts := [], participants := [], messages := [], dms := [] }

/-- C4 (counterexample): sending a direct message to the existing
receiver `"bob"` performs zero live deliveries — `send_dm` only inserts
a row; the code has no personal-channel registry and no `unicastUser`,
so a receiver holding any number of live connections receives the event
on none of them, not exactly once on each. -/
theorem C4_no_delivery_counterexample :
    (send_dm dbTwoUsers "alice" ⟨"bob", "hi"⟩ "12:00").2 = [] ∧
    (send_dm dbTwoUsers "alice" ⟨"bob", "hi"⟩ "12:00").1.dms =
      [⟨"alice", "bob", "hi", "12:00"⟩] := by
  decide

/-- C4 (amended): `send_dm` never delivers any live event: if a user row
for the receiver exists the direct message is appended to the persisted
list (once), otherwise nothing is stored; in both cases the endpoint
answers success and the delivery list is empty. -/
theorem C4_dm_persist_only (db : DBState) (s : String) (dm : DMSchema)
    (ts : String) :
    (send_dm db s dm ts).2 = [] ∧
    (db.users.any (fun w => w.username == dm.receiver) = true →
      (send_dm db s dm ts).1 =
        { db with dms := db.dms ++ [⟨s, dm.receiver, dm.text, ts⟩] }) ∧
    (db.users.any (fun w => w.username == dm.receiver) = false →
      (send_dm db s dm ts).1 = db) := by
  refine ⟨?_, ?_, ?_⟩ <;> unfold send_dm
  · cases h : db.users.any (fun w => w.username == dm.receiver) <;> simp [h]
  · intro h; simp [h]
  · intro h; simp [h]

/-- C4 witness: the message to the existing `"bob"` is stored and not
pushed; the message to the absent `"carol"` changes nothing. -/
theorem C4_dm_persist_only_witness :
    (send_dm dbTwoUsers "alice" ⟨"bob", "hi"⟩ "12:00").2 = [] ∧
    (send_dm dbTwoUsers "alice" ⟨"bob", "hi"⟩ "12:00").1 =
      { dbTwoUsers with dms := [⟨"alice", "bob", "hi", "12:00"⟩] } ∧
    (send_dm dbTwoUsers "alice" ⟨"carol", "hi"⟩ "12:00").1 = dbTwoUsers :=
  ⟨(C4_dm_persist_only dbTwoUsers "alice" ⟨"bob", "hi"⟩ "12:00").1,
   by
    have h := (C4_dm_persist_only dbTwoUsers "alice" ⟨"bob", "hi"⟩
      "12:00").2.1 (by decide)
    simpa using h,
   (C4_dm_persist_only dbTwoUsers "alice" ⟨"carol", "hi"⟩ "12:00").2.2
     (by decide)⟩

/-! ## C5: presence set is global, not per-room -/

/-- A live connection held by `"u"`. -/
def connU : Conn := ⟨0, "u", true⟩

/-- A live connection held by `"v"`. -/
def connV : Conn := ⟨1, "v", true⟩

/-- The manager after `"u"` connected to room 1. -/
def mAfterU : ManagerState := (connect ManagerState.empty connU 1 "u").1

/-- C5 (counterexample): after `"u"` connects to room 1 and `"v"`
connects to room 2, the status event broadcast to room 2 carries
`["u", "v"]`, yet the identities holding a connection to room 2 are
exactly `["v"]`: the broadcast presence set is the global
`online_users`, not the per-room set the claim requires. -/
theorem C5_cross_room_counterexample :
    (connect mAfterU connV 2 "v").2.1 = Event.status ["u", "v"] ∧
    roomUsers (connect mAfterU connV 2 "v").1 2 = ["v"] ∧
    ("u" ∈ (["u", "v"] : List String) ∧ "u" ∉ (["v"] : List String)) := by
  decide

/-- C5 (amended): the presence set is one global, room-agnostic set:
`connect` adds the username to `online_users` and broadcasts that global
set (as the status event) to the connecting room, and `disconnect`
removes the username from it unconditionally — even when the identity
still holds live connections, to this room or any other. -/
theorem C5_global_presence (m : ManagerState) (ws : Conn) (hid : Nat)
    (uname : String) :
    (connect m ws hid uname).2.1 =
      Event.status (setAdd m.online_users uname) ∧
    (connect m ws hid uname).1 =
      ⟨addToRoom hid ws m.active_connections,
       setAdd m.online_users uname⟩ ∧
    disconnect m ws hid uname =
      ⟨removeFromRoom hid ws m.active_connections,
       m.online_users.erase uname⟩ := by
  refine ⟨rfl, ?_, rfl⟩
  unfold connect broadcast_status
  simp [broadcast_state_eq]

/-! ## C6: mutations on absent targets -/

/-- C6 (counterexample): `join_h` on the missing hangout id 7 is not a
no-op: the stored state changes — a dangling participant row appears —
while the endpoint still answers success. -/
theorem C6_join_missing_counterexample :
    DBState.empty.hangouts.find? (fun x => x.id == 7) = none ∧
    (join_h DBState.empty 7 ⟨"a", "h", none, false⟩).participants =
      [⟨7, "a", none⟩] := by
  decide

/-- When no hangout matches the id, the like-toggle walk leaves the
table unchanged. -/
theorem likeUpdate_of_not_found (hid : Nat) (u : String)
    (l : List Hangout) (h : l.find? (fun x => x.id == hid) = none) :
    likeUpdate hid u l = l := by
  induction l with
  | nil => rfl
  | cons a t ih =>
    cases hpa : (a.id == hid) with
    | true => simp [hpa] at h
    | false =>
      simp only [List.find?_cons_of_neg, hpa, Bool.false_eq_true,
        not_false_eq_true] at h
      simp [likeUpdate, hpa, ih h]

/-- C6 (amended): `like_h` on a missing hangout and `send_dm` to a
missing receiver are silent no-ops that change nothing and answer
success; `join_h`, however, performs no existence check: a join
referencing a missing hangout id still inserts a participant row for
that id while answering success. -/
theorem C6_missing_target_behavior (db : DBState) (hid : Nat)
    (uname s : String) (dm : DMSchema) (ts : String) (id : Nat) (u : User)
    (h1 : db.hangouts.find? (fun x => x.id == hid) = none)
    (h2 : db.users.any (fun w => w.username == dm.receiver) = false)
    (h3 : db.participants.any
        (fun p => p.hangoutId == id && p.username == u.username) = false) :
    like_h db hid uname = db ∧
    send_dm db s dm ts = (db, []) ∧
    (join_h db id u).participants =
      db.participants ++ [⟨id, u.username, u.avatarData⟩] := by
  refine ⟨?_, ?_, ?_⟩
  · unfold like_h
    rw [likeUpdate_of_not_found hid uname db.hangouts h1]
  · unfold send_dm
    simp [h2]
  · unfold join_h
    simp [h3]

/-- C6 witness: on `dbTwoUsers` (no hangouts, users `alice`/`bob`) the
like of hangout 7 and the DM to `carol` change nothing, while the join
of the missing hangout 7 inserts a row. -/
theorem C6_missing_target_behavior_witness :
    like_h dbTwoUsers 7 "alice" = dbTwoUsers ∧
    send_dm dbTwoUsers "alice" ⟨"carol", "x"⟩ "1:00" = (dbTwoUsers, []) ∧
    (join_h dbTwoUsers 7 ⟨"a", "h", none, false⟩).participants =
      dbTwoUsers.participants ++ [⟨7, "a", none⟩] :=
  C6_missing_target_behavior dbTwoUsers 7 "alice" "alice" ⟨"carol", "x"⟩
    "1:00" 7 ⟨"a", "h", none, false⟩ (by decide) (by decide) (by decide)

/-! ## C7: double like-toggle -/

/-- Toggling the first matching hangout commutes with looking it up. -/
theorem find?_likeUpdate (hid : Nat) (u : String) (l : List Hangout) :
    (likeUpdate hid u l).find? (fun x => x.id == hid) =
      (l.find? (fun x => x.id == hid)).map
        (fun x => { x with likesData := toggleLike x.likesData u }) := by
  induction l with
  | nil => rfl
  | cons a t ih =>
    cases hpa : (a.id == hid) with
    | true => simp [likeUpdate, hpa]
    | false => simp [likeUpdate, hpa, ih]

/-- The likes list seen after `like_h` is the toggle of the one seen
before. -/
theorem likesOf_like_h (db : DBState) (hid : Nat) (u : String) :
    likesOf (like_h db hid u) hid =
      (likesOf db hid).map (fun l => toggleLike l u) := by
  unfold likesOf like_h
  rw [find?_likeUpdate]
  cases db.hangouts.find? (fun x => x.id == hid) <;> rfl

/-- On a duplicate-free likes list, toggling the same user twice yields
the same set of likers. -/
theorem toggleLike_twice_mem (l : List String) (u : String)
    (hnd : l.Nodup) (x : String) :
    x ∈ toggleLike (toggleLike l u) u ↔ x ∈ l := by
  by_cases hu : u ∈ l
  · have hnot : u ∉ l.erase u := hnd.not_mem_erase
    simp only [toggleLike, if_pos hu, if_neg hnot]
    rw [List.mem_append, hnd.mem_erase_iff, List.mem_singleton]
    constructor
    · rintro (⟨_, hx⟩ | rfl)
      · exact hx
      · exact hu
    · intro hx
      by_cases hxu : x = u
      · exact Or.inr hxu
      · exact Or.inl ⟨hxu, hx⟩
  · have hmem : u ∈ l ++ [u] := by simp
    simp only [toggleLike, if_neg hu, if_pos hmem]
    rw [List.erase_append_right _ hu, List.erase_cons_head,
      List.append_nil]

/-- A database whose hangout 5 is already liked by `p` and `q`. -/
def dbLiked : DBState :=
  { users := [], hangouts := [⟨5, "t", "loc", "h", none, ["p", "q"]⟩],
    participants := [], messages := [], dms := [] }

/-- C7: toggling the like of the same hangout by the same identity twice
returns the like set to its original membership: the first call removes
the identity if present (else appends it), the second undoes it, for any
hangout whose stored likes list is duplicate-free (which every
toggle-built list is). -/
theorem C7_double_toggle (db : DBState) (hid : Nat) (uname : String)
    (l : List String) (x : String)
    (hl : likesOf db hid = some l) (hnd : l.Nodup) :
    likesOf (like_h (like_h db hid uname) hid uname) hid =
      some (toggleLike (toggleLike l uname) uname) ∧
    (x ∈ toggleLike (toggleLike l uname) uname ↔ x ∈ l) := by
  refine ⟨?_, toggleLike_twice_mem l uname hnd x⟩
  rw [likesOf_like_h, likesOf_like_h, hl]
  rfl

/-- C7 witness: on `dbLiked` (likes `["p", "q"]`) double-toggling `p`
keeps `q` a liker exactly as before. -/
theorem C7_double_toggle_witness :
    likesOf (like_h (like_h dbLiked 5 "p") 5 "p") 5 =
      some (toggleLike (toggleLike ["p", "q"] "p") "p") ∧
    ("q" ∈ toggleLike (toggleLike ["p", "q"] "p") "p" ↔
      "q" ∈ (["p", "q"] : List String)) :=
  C7_double_toggle dbLiked 5 "p" ["p", "q"] "q" (by decide) (by decide)

/-! ## C9: the admin flag at registration -/

/-- C9: whenever registration succeeds, the one created user carries
`isAdmin` true exactly when the lowercased requested username is
`"qasim"`; the schema offers the caller no admin field, and no other
user row is created or changed. -/
theorem C9_admin_iff_qasim (hashFn : String → String) (db : DBState)
    (u : RegisterSchema) (db' : DBState)
    (h : register hashFn db u = Except.ok db') :
    db'.users = db.users ++
      [⟨u.username, hashFn u.password, u.avatarData,
        pyLower u.username == "qasim"⟩] ∧
    (∀ w, w ∈ db'.users → w ∉ db.users →
      (w.isAdmin = true ↔ pyLower u.username = "qasim")) := by
  unfold register at h
  split at h
  · exact absurd h (by simp)
  · injection h with h
    subst h
    refine ⟨rfl, ?_⟩
    intro w hw hnw
    have hweq : w = ⟨u.username, hashFn u.password, u.avatarData,
        pyLower u.username == "qasim"⟩ := by
      rcases List.mem_append.mp hw with h2 | h2
      · exact absurd h2 hnw
      · simpa using h2
    subst hweq
    simp

/-- The password hash used to exercise `register` concretely. -/
def hashId : String → String := fun s => s

/-- C9 witness: registering `"Qasim"` into the empty database creates
exactly one user and its admin flag is set. -/
theorem C9_admin_iff_qasim_witness :
    (DBState.mk [⟨"Qasim", "pw", none, true⟩] [] [] [] []).users =
      DBState.empty.users ++
        [⟨"Qasim", "pw", none, pyLower "Qasim" == "qasim"⟩] :=
  (C9_admin_iff_qasim hashId DBState.empty ⟨"Qasim", "pw", none⟩
    (DBState.mk [⟨"Qasim", "pw", none, true⟩] [] [] [] [])
    (by rfl)).1

end Squad
